import Mathlib

/-!
# Verification of the resilient-execution core

Shallow embedding of the error taxonomy and classifier (`src/types/errors.ts`),
the retry mechanism and circuit breaker (`src/utils/retry.ts`), and the
graceful-shutdown manager (`src/utils/graceful-shutdown.ts`), together with
theorems settling the specification's claims about them.

Numbers: JavaScript `number` values used as millisecond amounts and backoff
factors are modelled as exact rationals (`ℚ`); timestamps and durations in the
circuit breaker as integers (`ℤ`); counters as naturals.  Fields that exist
only for logging (timestamps, `context`, `cause`, stack traces) are omitted
from the embedding; every field consulted by control flow is kept.
-/

namespace CloudSupportMcp

/-- Error category enumeration (`ErrorCategory` in `errors.ts`). -/
inductive ErrorCategory where
  | AUTHENTICATION
  | AUTHORIZATION
  | VALIDATION
  | NETWORK
  | API_CLIENT
  | TIMEOUT
  | CONFIGURATION
  | RESOURCE
  | UNKNOWN
deriving DecidableEq, Repr

/-- Error severity enumeration (`ErrorSeverity` in `errors.ts`). -/
inductive ErrorSeverity where
  | LOW
  | MEDIUM
  | HIGH
  | CRITICAL
deriving DecidableEq, Repr

/-- Error metadata carried by every typed error (`ErrorMetadata` in
`errors.ts`); the `timestamp`/`correlationId`/`context` logging fields are
omitted. -/
structure ErrorMetadata where
  category : ErrorCategory
  severity : ErrorSeverity
  code : String
  retryable : Bool
deriving DecidableEq, Repr

/-- A typed error of the `BaseError` hierarchy.  The subclass is recorded in
`name` (JavaScript sets `this.name = this.constructor.name`); `statusCode` is
the extra field of `ApiClientError` (`none` for every other subclass). -/
structure BaseError where
  name : String
  message : String
  metadata : ErrorMetadata
  statusCode : Option ℕ
deriving DecidableEq, Repr

/-- `AuthenticationError` constructor: category AUTHENTICATION, severity HIGH,
not retryable. -/
def AuthenticationError (message code : String) : BaseError :=
  { name := "AuthenticationError", message,
    metadata := { category := .AUTHENTICATION, severity := .HIGH, code, retryable := false },
    statusCode := none }

/-- `AuthorizationError` constructor: category AUTHORIZATION, severity HIGH,
not retryable. -/
def AuthorizationError (message code : String) : BaseError :=
  { name := "AuthorizationError", message,
    metadata := { category := .AUTHORIZATION, severity := .HIGH, code, retryable := false },
    statusCode := none }

/-- `ValidationError` constructor: category VALIDATION, severity LOW, not
retryable. -/
def ValidationError (message code : String) : BaseError :=
  { name := "ValidationError", message,
    metadata := { category := .VALIDATION, severity := .LOW, code, retryable := false },
    statusCode := none }

/-- `NetworkError` constructor: category NETWORK, severity MEDIUM, retryable. -/
def NetworkError (message code : String) : BaseError :=
  { name := "NetworkError", message,
    metadata := { category := .NETWORK, severity := .MEDIUM, code, retryable := true },
    statusCode := none }

/-- `ApiClientError` constructor.  The source computes
`severity: statusCode && statusCode >= 500 ? HIGH : MEDIUM` and
`retryable: statusCode ? statusCode >= 500 || statusCode === 429 : true`;
JavaScript truthiness makes `0` and `undefined` fall into the default branch,
modelled here by the `sc ≠ 0` test on `some sc` and the `none` branch. -/
def ApiClientError (message : String) (statusCode : Option ℕ) (code : String) : BaseError :=
  { name := "ApiClientError", message,
    metadata :=
      { category := .API_CLIENT,
        severity :=
          match statusCode with
          | some sc => if sc ≠ 0 ∧ 500 ≤ sc then .HIGH else .MEDIUM
          | none => .MEDIUM,
        code,
        retryable :=
          match statusCode with
          | some sc => if sc ≠ 0 then decide (500 ≤ sc ∨ sc = 429) else true
          | none => true },
    statusCode }

/-- `TimeoutError` constructor: category TIMEOUT, severity MEDIUM, retryable.
The `timeout` argument only lands in the logging context in the source, so it
is ignored by the metadata here. -/
def TimeoutError (message : String) (timeout : ℕ) (code : String) : BaseError :=
  { name := "TimeoutError", message,
    metadata := { category := .TIMEOUT, severity := .MEDIUM, code, retryable := true },
    statusCode := none }

/-- `ConfigurationError` constructor: category CONFIGURATION, severity
CRITICAL, not retryable. -/
def ConfigurationError (message code : String) : BaseError :=
  { name := "ConfigurationError", message,
    metadata := { category := .CONFIGURATION, severity := .CRITICAL, code, retryable := false },
    statusCode := none }

/-- `ResourceError` constructor: category RESOURCE, severity HIGH, retryable. -/
def ResourceError (message code : String) : BaseError :=
  { name := "ResourceError", message,
    metadata := { category := .RESOURCE, severity := .HIGH, code, retryable := true },
    statusCode := none }

/-- `GenericError` constructor: category UNKNOWN, severity MEDIUM, not
retryable. -/
def GenericError (message code : String) : BaseError :=
  { name := "GenericError", message,
    metadata := { category := .UNKNOWN, severity := .MEDIUM, code, retryable := false },
    statusCode := none }

namespace ErrorClassifier

/-- `ErrorClassifier.fromHttpResponse` from `errors.ts`: the `switch` on the
status code, written as the equivalent equality chain.  The source's
`default` branch contains an `if (statusCode >= 500)` whose two arms build
the same `ApiClientError`; the chain keeps that split. -/
def fromHttpResponse (statusCode : ℕ) (statusText : String) : BaseError :=
  let message := s!"HTTP {statusCode}: {statusText}"
  if statusCode = 401 then AuthenticationError message "HTTP_401"
  else if statusCode = 403 then AuthorizationError message "HTTP_403"
  else if statusCode = 400 ∨ statusCode = 422 then
    ValidationError message s!"HTTP_{statusCode}"
  else if statusCode = 429 then ApiClientError message (some statusCode) "HTTP_429"
  else if statusCode = 408 ∨ statusCode = 504 then
    TimeoutError message 30000 s!"HTTP_{statusCode}"
  else if statusCode = 404 then ResourceError message "HTTP_404"
  else if 500 ≤ statusCode then ApiClientError message (some statusCode) s!"HTTP_{statusCode}"
  else ApiClientError message (some statusCode) s!"HTTP_{statusCode}"

end ErrorClassifier

/-- The values `ErrorClassifier.fromGenericError` can receive: an error that
is already a `BaseError`, another JavaScript `Error` (with `name` and
`message`), a string, or anything else. -/
inductive JSValue where
  | typedError (e : BaseError)
  | jsError (name message : String)
  | str (s : String)
  | other
deriving DecidableEq, Repr

/-- JavaScript `String.prototype.includes`: `sub` occurs contiguously in `s`. -/
def strIncludes (s sub : String) : Bool :=
  (List.range (s.data.length + 1)).any fun i => sub.data.isPrefixOf (s.data.drop i)

/-- `context ? context + ": " + message : message` from `fromGenericError`. -/
def contextMessage (context : Option String) (message : String) : String :=
  match context with
  | some c => s!"{c}: {message}"
  | none => message

namespace ErrorClassifier

/-- `ErrorClassifier.fromGenericError` from `errors.ts`: a `BaseError` passes
through unchanged; `TypeError` mentioning "fetch" becomes a `NetworkError`;
`AbortError` or a message mentioning "timeout" becomes a `TimeoutError`;
strings and everything else become a `GenericError`. -/
def fromGenericError (error : JSValue) (context : Option String) : BaseError :=
  match error with
  | .typedError e => e
  | .jsError nm msg =>
      if nm = "TypeError" ∧ strIncludes msg "fetch" then
        NetworkError s!"Network error: {msg}" "FETCH_ERROR"
      else if nm = "AbortError" ∨ strIncludes msg "timeout" then
        TimeoutError s!"Operation timed out: {msg}" 30000 "TIMEOUT_ERROR"
      else GenericError (contextMessage context msg) "UNKNOWN_001"
  | .str s2 => GenericError (contextMessage context s2) "UNKNOWN_001"
  | .other => GenericError (contextMessage context "Unknown error occurred") "UNKNOWN_001"

end ErrorClassifier

/-! ## Retry mechanism (`src/utils/retry.ts`) -/

/-- `RetryConfig` from `retry.ts`.  The `retryableErrors` predicate is passed
separately to `RetryMechanism.execute` because its error type is generic. -/
structure RetryConfig where
  maxAttempts : ℕ
  initialDelay : ℚ
  maxDelay : ℚ
  backoffFactor : ℚ
  jitter : Bool
deriving DecidableEq, Repr

namespace RetryMechanism

/-- `RetryMechanism.calculateDelay`: exponential backoff capped at `maxDelay`;
with jitter the capped delay is scaled by the random factor
`0.75 + Math.random() * 0.5` (passed here as `jitterFactor`) and floored by
`Math.floor`. -/
def calculateDelay (attempt : ℕ) (config : RetryConfig) (jitterFactor : ℚ) : ℚ :=
  let exponentialDelay :=
    min (config.initialDelay * config.backoffFactor ^ (attempt - 1)) config.maxDelay
  if config.jitter then ((Int.floor (exponentialDelay * jitterFactor) : ℤ) : ℚ)
  else exponentialDelay

/-- The retry loop of `RetryMechanism.execute`, with the operation modelled as
a function from the (1-indexed) attempt number to that invocation's outcome.
`fuel` is the number of attempts still allowed including the current one
(`maxAttempts − attempt + 1`).  Returns the surfaced outcome (`none` models
the `throw lastError` with no attempt ever made, possible only when
`maxAttempts < 1`) together with the number of invocations performed. -/
def retryLoop (op : ℕ → Except ε α) (retryableErrors : ε → Bool) :
    ℕ → ℕ → Option (Except ε α) × ℕ
  | _, 0 => (none, 0)
  | attempt, 1 => (some (op attempt), 1)
  | attempt, fuel + 2 =>
      match op attempt with
      | .ok a => (some (.ok a), 1)
      | .error e =>
          if retryableErrors e then
            let r := retryLoop op retryableErrors (attempt + 1) (fuel + 1)
            (r.1, r.2 + 1)
          else (some (.error e), 1)

/-- `RetryMechanism.execute`: run the loop from attempt 1 with
`maxAttempts` attempts allowed. -/
def execute (op : ℕ → Except ε α) (retryableErrors : ε → Bool) (maxAttempts : ℕ) :
    Option (Except ε α) × ℕ :=
  retryLoop op retryableErrors 1 maxAttempts

end RetryMechanism

/-! ## Circuit breaker (`src/utils/retry.ts`) -/

/-- `CircuitState` from `retry.ts`. -/
inductive CircuitState where
  | CLOSED
  | OPEN
  | HALF_OPEN
deriving DecidableEq, Repr

/-- `CircuitBreakerConfig` from `retry.ts`; durations in milliseconds. -/
structure CircuitBreakerConfig where
  failureThreshold : ℕ
  recoveryTimeout : ℤ
  monitoringPeriod : ℤ
  minimumRequests : ℕ
deriving DecidableEq, Repr

/-- The mutable state of a `CircuitBreaker` instance: its configuration, the
state-machine `state` and the `stats` record `{requests, failures,
lastFailureTime, windowStart}`. -/
structure CircuitBreaker where
  config : CircuitBreakerConfig
  state : CircuitState
  requests : ℕ
  failures : ℕ
  lastFailureTime : ℤ
  windowStart : ℤ
deriving DecidableEq, Repr

namespace CircuitBreaker

/-- `resetStats`: zero the counters and `lastFailureTime`, restart the window
at the current clock. -/
def resetStats (now : ℤ) (cb : CircuitBreaker) : CircuitBreaker :=
  { cb with requests := 0, failures := 0, lastFailureTime := 0, windowStart := now }

/-- `updateState`: reset the statistics if the monitoring period has elapsed,
then move `OPEN → HALF_OPEN` if the recovery timeout has elapsed since the
(possibly just reset) `lastFailureTime`. -/
def updateState (now : ℤ) (cb : CircuitBreaker) : CircuitBreaker :=
  let cb1 := if cb.config.monitoringPeriod < now - cb.windowStart then cb.resetStats now else cb
  if cb1.state = .OPEN ∧ cb1.config.recoveryTimeout < now - cb1.lastFailureTime then
    { cb1 with state := .HALF_OPEN }
  else cb1

/-- `onSuccess`: in `HALF_OPEN`, recover to `CLOSED` and reset the stats;
otherwise do nothing. -/
def onSuccess (now : ℤ) (cb : CircuitBreaker) : CircuitBreaker :=
  if cb.state = .HALF_OPEN then ({ cb with state := .CLOSED }).resetStats now else cb

/-- `onFailure`: record the failure and its time; open the breaker when the
failure and request counters both reach their thresholds. -/
def onFailure (now : ℤ) (cb : CircuitBreaker) : CircuitBreaker :=
  let cb1 := { cb with failures := cb.failures + 1, lastFailureTime := now }
  if cb1.config.failureThreshold ≤ cb1.failures ∧
      cb1.config.minimumRequests ≤ cb1.requests then
    { cb1 with state := .OPEN }
  else cb1

/-- Outcome of one `CircuitBreaker.execute` call: rejected with the
"circuit breaker is OPEN" error, the wrapped operation's failure rethrown, or
its successful result. -/
inductive CBResult (ε α : Type) where
  | circuitOpen
  | opFailure (e : ε)
  | success (a : α)
deriving DecidableEq, Repr

/-- `CircuitBreaker.execute` for one call at clock `now` whose wrapped
operation would produce `op`: run `updateState`, fail fast when `OPEN`,
otherwise count the request, dispatch, and apply `onSuccess`/`onFailure`.
The boolean records whether the wrapped operation was invoked. -/
def execute (now : ℤ) (cb : CircuitBreaker) (op : Except ε α) :
    CircuitBreaker × CBResult ε α × Bool :=
  let cb1 := cb.updateState now
  if cb1.state = .OPEN then (cb1, .circuitOpen, false)
  else
    let cb2 := { cb1 with requests := cb1.requests + 1 }
    match op with
    | .ok a => (cb2.onSuccess now, .success a, true)
    | .error e => (cb2.onFailure now, .opFailure e, true)

end CircuitBreaker

/-! ## Graceful shutdown manager (`src/utils/graceful-shutdown.ts`) -/

/-- The observable state of `GracefulShutdownManager` for the claims about
handler invocation: the number of registered handlers (registration happens
once at startup), the `isShuttingDown` guard, and the log of handler indices
invoked so far, in invocation order. -/
structure ShutdownManagerState where
  handlerCount : ℕ
  isShuttingDown : Bool
  invocationLog : List ℕ
deriving DecidableEq, Repr

namespace GracefulShutdownManager

/-- State at startup: handlers registered, not shutting down, nothing run. -/
def initState (handlerCount : ℕ) : ShutdownManagerState :=
  { handlerCount, isShuttingDown := false, invocationLog := [] }

/-- One call to `shutdown(reason)`: if already shutting down, return without
touching anything; otherwise set the guard and run every registered handler
(each exactly once in this batch).  The guard is set synchronously before the
first `await`, so under the single-threaded cooperative model each call sees
the flag left by the previous one. -/
def shutdown (st : ShutdownManagerState) : ShutdownManagerState :=
  if st.isShuttingDown then st
  else
    { st with
      isShuttingDown := true,
      invocationLog := st.invocationLog ++ List.range st.handlerCount }

end GracefulShutdownManager

/-! ## Theorems -/

/-- C8: an error that is already a typed error of the `BaseError` taxonomy is
returned by `fromGenericError` itself, unchanged — classification is
idempotent. -/
theorem fromGenericError_idempotent (e : BaseError) (context : Option String) :
    ErrorClassifier.fromGenericError (.typedError e) context = e := rfl

/-- C3 counterexample: `fromHttpResponse 402` (an "other 4xx" status) yields
category `API_CLIENT` but `retryable = false`, refuting the claimed
`retryable = true`. -/
theorem other4xx_retryable_counterexample :
    (ErrorClassifier.fromHttpResponse 402 "Payment Required").metadata.category =
      ErrorCategory.API_CLIENT ∧
    (ErrorClassifier.fromHttpResponse 402 "Payment Required").metadata.retryable = false := by
  constructor <;> rfl

/-- C3 amended: for every 4xx status other than 400, 401, 403, 404, 408, 422
and 429, `fromHttpResponse` returns a typed error of category `API_CLIENT`
whose metadata has `retryable = false`. -/
theorem other4xx_classification_amended (s : ℕ) (t : String)
    (h4 : 400 ≤ s) (h5 : s < 500)
    (hne : s ≠ 400 ∧ s ≠ 401 ∧ s ≠ 403 ∧ s ≠ 404 ∧ s ≠ 408 ∧ s ≠ 422 ∧ s ≠ 429) :
    (ErrorClassifier.fromHttpResponse s t).metadata.category = ErrorCategory.API_CLIENT ∧
    (ErrorClassifier.fromHttpResponse s t).metadata.retryable = false := by
  obtain ⟨n400, n401, n403, n404, n408, n422, n429⟩ := hne
  unfold ErrorClassifier.fromHttpResponse
  rw [if_neg n401, if_neg n403, if_neg (by omega : ¬(s = 400 ∨ s = 422)), if_neg n429,
    if_neg (by omega : ¬(s = 408 ∨ s = 504)), if_neg n404, if_neg (by omega : ¬(500 ≤ s))]
  unfold ApiClientError
  refine ⟨rfl, ?_⟩
  simp only
  rw [if_pos (by omega : s ≠ 0)]
  simp only [decide_eq_false_iff_not]
  omega

/-- C3 amended witness: status 402 instantiates the amended claim. -/
theorem other4xx_classification_amended_witness :
    (ErrorClassifier.fromHttpResponse 402 "t").metadata.category = ErrorCategory.API_CLIENT ∧
    (ErrorClassifier.fromHttpResponse 402 "t").metadata.retryable = false :=
  other4xx_classification_amended 402 "t" (by omega) (by omega) (by omega)

/-- C7: the classifier's status mapping — 401 → AUTHENTICATION (not
retryable), 403 → AUTHORIZATION (not retryable), 400/422 → VALIDATION (not
retryable), 429 → API_CLIENT (retryable), 408/504 → TIMEOUT (retryable),
404 → RESOURCE (metadata retryable), and every remaining status ≥ 500 →
API_CLIENT (retryable). -/
theorem fromHttpResponse_status_mapping (t : String) (s : ℕ) :
    ((ErrorClassifier.fromHttpResponse 401 t).metadata.category = .AUTHENTICATION ∧
      (ErrorClassifier.fromHttpResponse 401 t).metadata.retryable = false) ∧
    ((ErrorClassifier.fromHttpResponse 403 t).metadata.category = .AUTHORIZATION ∧
      (ErrorClassifier.fromHttpResponse 403 t).metadata.retryable = false) ∧
    ((ErrorClassifier.fromHttpResponse 400 t).metadata.category = .VALIDATION ∧
      (ErrorClassifier.fromHttpResponse 400 t).metadata.retryable = false) ∧
    ((ErrorClassifier.fromHttpResponse 422 t).metadata.category = .VALIDATION ∧
      (ErrorClassifier.fromHttpResponse 422 t).metadata.retryable = false) ∧
    ((ErrorClassifier.fromHttpResponse 429 t).metadata.category = .API_CLIENT ∧
      (ErrorClassifier.fromHttpResponse 429 t).metadata.retryable = true) ∧
    ((ErrorClassifier.fromHttpResponse 408 t).metadata.category = .TIMEOUT ∧
      (ErrorClassifier.fromHttpResponse 408 t).metadata.retryable = true) ∧
    ((ErrorClassifier.fromHttpResponse 504 t).metadata.category = .TIMEOUT ∧
      (ErrorClassifier.fromHttpResponse 504 t).metadata.retryable = true) ∧
    ((ErrorClassifier.fromHttpResponse 404 t).metadata.category = .RESOURCE ∧
      (ErrorClassifier.fromHttpResponse 404 t).metadata.retryable = true) ∧
    (500 ≤ s → s ≠ 504 →
      (ErrorClassifier.fromHttpResponse s t).metadata.category = .API_CLIENT ∧
      (ErrorClassifier.fromHttpResponse s t).metadata.retryable = true) := by
  refine ⟨⟨rfl, rfl⟩, ⟨rfl, rfl⟩, ⟨rfl, rfl⟩, ⟨rfl, rfl⟩, ⟨rfl, rfl⟩, ⟨rfl, rfl⟩,
    ⟨rfl, rfl⟩, ⟨rfl, rfl⟩, ?_⟩
  intro h5 h504
  unfold ErrorClassifier.fromHttpResponse
  rw [if_neg (by omega : ¬s = 401), if_neg (by omega : ¬s = 403),
    if_neg (by omega : ¬(s = 400 ∨ s = 422)), if_neg (by omega : ¬s = 429),
    if_neg (by omega : ¬(s = 408 ∨ s = 504)), if_neg (by omega : ¬s = 404), if_pos h5]
  unfold ApiClientError
  refine ⟨rfl, ?_⟩
  simp only
  rw [if_pos (by omega : s ≠ 0)]
  simp only [decide_eq_true_eq]
  omega

/-- C7 witness: the mapping instantiated at status 500. -/
theorem fromHttpResponse_status_mapping_witness :
    (ErrorClassifier.fromHttpResponse 500 "t").metadata.category = ErrorCategory.API_CLIENT ∧
    (ErrorClassifier.fromHttpResponse 500 "t").metadata.retryable = true :=
  (fromHttpResponse_status_mapping "t" 500).2.2.2.2.2.2.2.2 (by omega) (by omega)

/-- C2 counterexample: with `initialDelay = maxDelay = 10000`, jitter enabled
and jitter factor `1.2` (inside `[0.75, 1.25]`), the delay before attempt 2 is
`12000 > maxDelay`. -/
theorem retryDelay_maxDelay_counterexample :
    RetryMechanism.calculateDelay 1 ⟨3, 10000, 10000, 2, true⟩ (6/5) = 12000 ∧
    ¬(RetryMechanism.calculateDelay 1 ⟨3, 10000, 10000, 2, true⟩ (6/5) ≤
        (⟨3, 10000, 10000, 2, true⟩ : RetryConfig).maxDelay) := by
  constructor <;> norm_num [RetryMechanism.calculateDelay]

/-- C2 amended: the retry delay is at most `maxDelay` whenever jitter is
disabled, and at most `(5/4) · maxDelay` in every case (for any jitter factor
in `[0.75, 1.25]` and nonnegative configured delays and backoff factor). -/
theorem retryDelay_bounded_amended (config : RetryConfig) (attempt : ℕ) (jf : ℚ)
    (hjl : 3/4 ≤ jf) (hju : jf ≤ 5/4)
    (hi : 0 ≤ config.initialDelay) (hb : 0 ≤ config.backoffFactor)
    (hm : 0 ≤ config.maxDelay) :
    RetryMechanism.calculateDelay attempt config jf ≤ 5/4 * config.maxDelay ∧
    (config.jitter = false →
      RetryMechanism.calculateDelay attempt config jf ≤ config.maxDelay) := by
  have he1 : min (config.initialDelay * config.backoffFactor ^ (attempt - 1)) config.maxDelay ≤
      config.maxDelay := min_le_right _ _
  have he0 : 0 ≤ min (config.initialDelay * config.backoffFactor ^ (attempt - 1))
      config.maxDelay := le_min (mul_nonneg hi (pow_nonneg hb _)) hm
  unfold RetryMechanism.calculateDelay
  rcases hj : config.jitter with _ | _
  · simp only [if_neg Bool.false_ne_true]
    exact ⟨by linarith, fun _ => he1⟩
  · simp only [if_pos rfl]
    refine ⟨?_, by simp⟩
    calc ((Int.floor (min (config.initialDelay * config.backoffFactor ^ (attempt - 1))
            config.maxDelay * jf) : ℤ) : ℚ) ≤
          min (config.initialDelay * config.backoffFactor ^ (attempt - 1))
            config.maxDelay * jf := Int.floor_le _
      _ ≤ min (config.initialDelay * config.backoffFactor ^ (attempt - 1))
            config.maxDelay * (5/4) := by
          exact mul_le_mul_of_nonneg_left hju he0
      _ ≤ config.maxDelay * (5/4) := by
          exact mul_le_mul_of_nonneg_right he1 (by norm_num)
      _ = 5/4 * config.maxDelay := by ring

/-- C2 amended witness: the default configuration at attempt 1 with jitter
factor 1. -/
theorem retryDelay_bounded_amended_witness :
    RetryMechanism.calculateDelay 1 ⟨3, 1000, 10000, 2, true⟩ 1 ≤
      5/4 * (⟨3, 1000, 10000, 2, true⟩ : RetryConfig).maxDelay :=
  (retryDelay_bounded_amended ⟨3, 1000, 10000, 2, true⟩ 1 1 (by norm_num) (by norm_num)
    (by norm_num) (by norm_num) (by norm_num)).1

/-- C4 counterexample: with `initialDelay = 3`, jitter enabled and jitter
factor `5/6`, the computed delay is `⌊3 · (5/6)⌋ = 2`, not the un-floored
`3 · (5/6) = 5/2` that the claim's formula gives. -/
theorem jitterDelay_floor_counterexample :
    RetryMechanism.calculateDelay 1 ⟨3, 3, 10, 2, true⟩ (5/6) ≠
      min ((3 : ℚ) * 2 ^ (1 - 1)) 10 * (5/6) := by
  norm_num [RetryMechanism.calculateDelay]

/-- C4 amended: for every attempt `a ≥ 1`, the delay slept before attempt
`a+1` equals `min(initialDelay · backoffFactor^(a−1), maxDelay)` when jitter
is disabled, and equals the floor of that quantity scaled by the random
jitter factor when jitter is enabled. -/
theorem calculateDelay_formula_amended (config : RetryConfig) (a : ℕ) (jf : ℚ)
    (ha : 1 ≤ a) :
    (config.jitter = false →
      RetryMechanism.calculateDelay a config jf =
        min (config.initialDelay * config.backoffFactor ^ (a - 1)) config.maxDelay) ∧
    (config.jitter = true →
      RetryMechanism.calculateDelay a config jf =
        ((Int.floor (min (config.initialDelay * config.backoffFactor ^ (a - 1))
            config.maxDelay * jf) : ℤ) : ℚ)) := by
  constructor <;> intro hj <;> simp [RetryMechanism.calculateDelay, hj]

/-- C4 amended witness: both branches of the formula at attempt 1. -/
theorem calculateDelay_formula_amended_witness :
    RetryMechanism.calculateDelay 1 ⟨3, 3, 10, 2, false⟩ (5/6) =
      min ((3 : ℚ) * 2 ^ (1 - 1)) 10 ∧
    RetryMechanism.calculateDelay 1 ⟨3, 3, 10, 2, true⟩ (5/6) =
      ((Int.floor (min ((3 : ℚ) * 2 ^ (1 - 1)) 10 * (5/6)) : ℤ) : ℚ) :=
  ⟨(calculateDelay_formula_amended ⟨3, 3, 10, 2, false⟩ 1 (5/6) (by omega)).1 rfl,
    (calculateDelay_formula_amended ⟨3, 3, 10, 2, true⟩ 1 (5/6) (by omega)).2 rfl⟩

/-- C9: starting from startup state, the first `shutdown` call (and only it)
runs every registered handler, later calls leave the state untouched, and
each handler index occurs at most once in the invocation log — so each
registered handler is invoked at most once per process lifetime. -/
theorem shutdown_handlers_at_most_once (n m i : ℕ) :
    GracefulShutdownManager.shutdown^[m + 1] (GracefulShutdownManager.initState n) =
      { handlerCount := n, isShuttingDown := true, invocationLog := List.range n } ∧
    List.count i
      ((GracefulShutdownManager.shutdown^[m] (GracefulShutdownManager.initState n)).invocationLog)
      ≤ 1 := by
  have key : ∀ k : ℕ,
      GracefulShutdownManager.shutdown^[k + 1] (GracefulShutdownManager.initState n) =
        { handlerCount := n, isShuttingDown := true, invocationLog := List.range n } := by
    intro k
    induction k with
    | zero =>
        simp [GracefulShutdownManager.shutdown, GracefulShutdownManager.initState]
    | succ k ih =>
        rw [Function.iterate_succ_apply', ih]
        simp [GracefulShutdownManager.shutdown]
  refine ⟨key m, ?_⟩
  rcases m with _ | m
  · simp [GracefulShutdownManager.initState]
  · rw [key m]
    exact List.nodup_iff_count_le_one.mp (List.nodup_range n) i

/-- Helper: a successful invocation ends the retry loop at once with that
result and one invocation counted. -/
lemma retryLoop_ok {ε α : Type} (op : ℕ → Except ε α) (retr : ε → Bool)
    (attempt fuel : ℕ) (a : α) (hfuel : 1 ≤ fuel) (hop : op attempt = .ok a) :
    RetryMechanism.retryLoop op retr attempt fuel = (some (.ok a), 1) := by
  match fuel, hfuel with
  | 1, _ => simp [RetryMechanism.retryLoop, hop]
  | (f + 2), _ => simp [RetryMechanism.retryLoop, hop]

/-- Helper: with at least two attempts left, a retryable failure recurses into
the next attempt, adding one to the invocation count. -/
lemma retryLoop_err_retry {ε α : Type} (op : ℕ → Except ε α) (retr : ε → Bool)
    (attempt fuel : ℕ) (e : ε) (hop : op attempt = .error e) (hretr : retr e = true) :
    RetryMechanism.retryLoop op retr attempt (fuel + 2) =
      ((RetryMechanism.retryLoop op retr (attempt + 1) (fuel + 1)).1,
        (RetryMechanism.retryLoop op retr (attempt + 1) (fuel + 1)).2 + 1) := by
  simp [RetryMechanism.retryLoop, hop, hretr]

/-- Helper: if `k` retryable failures are followed by a success, the loop from
any starting attempt with more than `k` attempts of fuel returns that success
after exactly `k + 1` invocations. -/
lemma retryLoop_succeeds {ε α : Type} (op : ℕ → Except ε α) (retr : ε → Bool) (a : α) :
    ∀ (k attempt fuel : ℕ) (errs : ℕ → ε), k < fuel →
      (∀ i, i < k → op (attempt + i) = .error (errs i) ∧ retr (errs i) = true) →
      op (attempt + k) = .ok a →
      RetryMechanism.retryLoop op retr attempt fuel = (some (.ok a), k + 1) := by
  intro k
  induction k with
  | zero =>
      intro attempt fuel errs hk _ hsucc
      exact retryLoop_ok op retr attempt fuel a (by omega) (by simpa using hsucc)
  | succ k ih =>
      intro attempt fuel errs hk hfail hsucc
      obtain ⟨f, rfl⟩ : ∃ f, fuel = f + 2 := ⟨fuel - 2, by omega⟩
      obtain ⟨h0, h0r⟩ := hfail 0 (by omega)
      rw [retryLoop_err_retry op retr attempt f (errs 0) (by simpa using h0) h0r]
      rw [ih (attempt + 1) (f + 1) (fun i => errs (i + 1)) (by omega)
        (fun i hi => by
          have := hfail (i + 1) (by omega)
          constructor
          · rw [show attempt + 1 + i = attempt + (i + 1) by omega]
            exact this.1
          · exact this.2)
        (by rw [show attempt + 1 + k = attempt + (k + 1) by omega]; exact hsucc)]

/-- C5: an operation that fails with retryable errors on its first `k`
invocations (`k < maxAttempts`) and succeeds on invocation `k + 1` is invoked
exactly `k + 1` times and `RetryMechanism.execute` resolves with the
successful result. -/
theorem retry_succeeds_after_k_failures {ε α : Type} (op : ℕ → Except ε α)
    (retr : ε → Bool) (N k : ℕ) (a : α) (errs : ℕ → ε) (hk : k < N)
    (hfail : ∀ i, 1 ≤ i → i ≤ k → op i = .error (errs i) ∧ retr (errs i) = true)
    (hsucc : op (k + 1) = .ok a) :
    RetryMechanism.execute op retr N = (some (.ok a), k + 1) := by
  unfold RetryMechanism.execute
  refine retryLoop_succeeds op retr a k 1 N (fun i => errs (i + 1)) hk ?_ ?_
  · intro i hi
    have := hfail (i + 1) (by omega) (by omega)
    rw [show (1 : ℕ) + i = i + 1 by omega]
    exact this
  · rw [show (1 : ℕ) + k = k + 1 by omega]
    exact hsucc

/-- C5 witness: an operation failing retryably on attempts 1 and 2 and
succeeding on attempt 3, under `maxAttempts = 5`. -/
theorem retry_succeeds_after_k_failures_witness :
    RetryMechanism.execute (fun i => if i ≤ 2 then Except.error i else Except.ok 42)
      (fun _ => true) 5 = (some (Except.ok 42), 3) :=
  retry_succeeds_after_k_failures _ _ 5 2 42 (fun i => i) (by omega)
    (fun i _ h2 => ⟨by simp [h2], rfl⟩) (by simp)

/-- Helper: if every remaining attempt fails and all but possibly the final
one are retryable, the loop exhausts its fuel and surfaces the last error,
having invoked the operation once per unit of fuel. -/
lemma retryLoop_exhausts {ε α : Type} (op : ℕ → Except ε α) (retr : ε → Bool) :
    ∀ (fuel attempt : ℕ) (errs : ℕ → ε), 1 ≤ fuel →
      (∀ i, i < fuel → op (attempt + i) = .error (errs (attempt + i))) →
      (∀ i, i + 1 < fuel → retr (errs (attempt + i)) = true) →
      RetryMechanism.retryLoop op retr attempt fuel =
        (some (.error (errs (attempt + fuel - 1))), fuel) := by
  intro fuel
  induction fuel with
  | zero => intro attempt errs h; omega
  | succ f ih =>
      intro attempt errs _ hfail hretr
      rcases f with _ | f
      · have h0 := hfail 0 (by omega)
        simp only [Nat.add_zero] at h0
        simp only [RetryMechanism.retryLoop]
        rw [show attempt + 1 - 1 = attempt by omega, h0]
      · have h0 := hfail 0 (by omega)
        have h0r := hretr 0 (by omega)
        rw [retryLoop_err_retry op retr attempt f (errs (attempt + 0))
          (by simpa using h0) (by simpa using h0r)]
        rw [ih (attempt + 1) errs (by omega)
          (fun i hi => by
            rw [show attempt + 1 + i = attempt + (i + 1) by omega]
            exact hfail (i + 1) (by omega))
          (fun i hi => by
            rw [show attempt + 1 + i = attempt + (i + 1) by omega]
            exact hretr (i + 1) (by omega))]
        rw [show attempt + 1 + (f + 1) - 1 = attempt + (f + 2) - 1 by omega]

/-- C6: a first invocation failing with a non-retryable error makes
`RetryMechanism.execute` perform exactly one invocation and surface that very
error unchanged; and when every attempt up to `maxAttempts` fails (the first
`maxAttempts − 1` retryably), the error surfaced is the last one observed,
unchanged, after exactly `maxAttempts` invocations. -/
theorem retry_nonretryable_and_exhaustion {ε α : Type} :
    (∀ (op : ℕ → Except ε α) (retr : ε → Bool) (N : ℕ) (e : ε),
      1 ≤ N → op 1 = .error e → retr e = false →
      RetryMechanism.execute op retr N = (some (.error e), 1)) ∧
    (∀ (op : ℕ → Except ε α) (retr : ε → Bool) (N : ℕ) (errs : ℕ → ε),
      1 ≤ N → (∀ i, 1 ≤ i → i ≤ N → op i = .error (errs i)) →
      (∀ i, 1 ≤ i → i < N → retr (errs i) = true) →
      RetryMechanism.execute op retr N = (some (.error (errs N)), N)) := by
  constructor
  · intro op retr N e hN hop hretr
    unfold RetryMechanism.execute
    match N, hN with
    | 1, _ => simp [RetryMechanism.retryLoop, hop]
    | (n + 2), _ => simp [RetryMechanism.retryLoop, hop, hretr]
  · intro op retr N errs hN hfail hretr
    unfold RetryMechanism.execute
    rw [retryLoop_exhausts op retr N 1 errs hN
      (fun i hi => by
        rw [show (1 : ℕ) + i = i + 1 by omega]
        exact hfail (i + 1) (by omega) (by omega))
      (fun i hi => by
        rw [show (1 : ℕ) + i = i + 1 by omega]
        exact hretr (i + 1) (by omega) (by omega))]
    rw [show 1 + N - 1 = N by omega]

/-- C6 witness: a non-retryable failure under `maxAttempts = 3` aborts after
one invocation, and three retryable failures under `maxAttempts = 3` surface
the third error after three invocations. -/
theorem retry_nonretryable_and_exhaustion_witness :
    RetryMechanism.execute (fun _ => (Except.error 7 : Except ℕ ℕ)) (fun _ => false) 3 =
      (some (Except.error 7), 1) ∧
    RetryMechanism.execute (fun i => (Except.error i : Except ℕ ℕ)) (fun _ => true) 3 =
      (some (Except.error 3), 3) :=
  ⟨retry_nonretryable_and_exhaustion.1 _ _ 3 7 (by omega) rfl rfl,
    retry_nonretryable_and_exhaustion.2 _ _ 3 (fun i => i) (by omega)
      (fun _ _ _ => rfl) (fun _ _ _ => rfl)⟩

/-- C1 counterexample: a breaker that is `OPEN` with `lastFailureTime = 65000`
is called at `now = 70000` — only 5000 ms after the last failure, far below
`recoveryTimeout = 60000` — yet, because the monitoring window has elapsed
(`windowStart = 0`, `monitoringPeriod = 10000`), the stats reset zeroes
`lastFailureTime` and the call is dispatched to the wrapped operation instead
of being rejected. -/
theorem circuitOpen_reject_counterexample :
    (⟨⟨5, 60000, 10000, 10⟩, .OPEN, 10, 5, 65000, 0⟩ : CircuitBreaker).state =
      CircuitState.OPEN ∧
    (70000 : ℤ) - (⟨⟨5, 60000, 10000, 10⟩, .OPEN, 10, 5, 65000, 0⟩ :
      CircuitBreaker).lastFailureTime ≤ (60000 : ℤ) ∧
    (CircuitBreaker.execute 70000 ⟨⟨5, 60000, 10000, 10⟩, .OPEN, 10, 5, 65000, 0⟩
      (Except.ok (0 : ℕ) : Except ℕ ℕ)).2.2 = true := by
  refine ⟨rfl, by decide, ?_⟩
  decide

/-- C1 amended: the circuit-breaker lifecycle.  (a) A failure that brings the
window's counters to `failures ≥ failureThreshold` and
`requests ≥ minimumRequests` opens the breaker.  (b) While `OPEN`, a call
made before `recoveryTimeout` has elapsed since `lastFailureTime` — provided
the monitoring period has not also elapsed since `windowStart` (a window
reset zeroes `lastFailureTime` and defeats the recovery check) — is rejected
with the circuit-open error without invoking the wrapped operation.  (c) Once
more than `recoveryTimeout` has elapsed past `lastFailureTime`, the next call
moves the state to `HALF_OPEN`.  (d) A single success while `HALF_OPEN`
returns the state to `CLOSED` with `requests` and `failures` reset to zero. -/
theorem circuitBreaker_lifecycle_amended {ε α : Type} (cb : CircuitBreaker) (now : ℤ)
    (op : Except ε α) (a : α) (e : ε) :
    (((cb.updateState now).state ≠ .OPEN ∧
        cb.config.failureThreshold ≤ (cb.updateState now).failures + 1 ∧
        cb.config.minimumRequests ≤ (cb.updateState now).requests + 1) →
      (CircuitBreaker.execute now cb (Except.error e : Except ε α)).1.state = .OPEN) ∧
    ((cb.state = .OPEN ∧ now - cb.lastFailureTime ≤ cb.config.recoveryTimeout ∧
        now - cb.windowStart ≤ cb.config.monitoringPeriod) →
      CircuitBreaker.execute now cb op = (cb, .circuitOpen, false)) ∧
    ((cb.state = .OPEN ∧ 0 ≤ cb.lastFailureTime ∧
        cb.config.recoveryTimeout < now - cb.lastFailureTime) →
      (cb.updateState now).state = .HALF_OPEN) ∧
    (cb.state = .HALF_OPEN →
      (CircuitBreaker.execute now cb (Except.ok a : Except ε α)).1.state = .CLOSED ∧
      (CircuitBreaker.execute now cb (Except.ok a : Except ε α)).1.requests = 0 ∧
      (CircuitBreaker.execute now cb (Except.ok a : Except ε α)).1.failures = 0) := by
  have hconfig : (cb.updateState now).config = cb.config := by
    simp only [CircuitBreaker.updateState, CircuitBreaker.resetStats]
    split <;> split <;> rfl
  refine ⟨?_, ?_, ?_, ?_⟩
  · intro ⟨hst, hthr, hmin⟩
    unfold CircuitBreaker.execute
    simp only [if_neg hst]
    unfold CircuitBreaker.onFailure
    simp only
    rw [if_pos (by rw [hconfig]; exact ⟨hthr, hmin⟩)]
  · intro ⟨hst, hrec, hwin⟩
    have hupd : cb.updateState now = cb := by
      unfold CircuitBreaker.updateState
      rw [if_neg (by omega : ¬cb.config.monitoringPeriod < now - cb.windowStart)]
      rw [if_neg (by
        intro ⟨_, h⟩
        omega)]
    unfold CircuitBreaker.execute
    rw [hupd, if_pos hst]
  · intro ⟨hst, hlft, hrec⟩
    unfold CircuitBreaker.updateState
    by_cases hwin : cb.config.monitoringPeriod < now - cb.windowStart
    · rw [if_pos hwin]
      rw [if_pos ⟨by simpa [CircuitBreaker.resetStats] using hst,
        by simp [CircuitBreaker.resetStats]; omega⟩]
    · rw [if_neg hwin]
      rw [if_pos ⟨hst, hrec⟩]
  · intro hst
    have hupd : (cb.updateState now).state = .HALF_OPEN := by
      unfold CircuitBreaker.updateState
      by_cases hwin : cb.config.monitoringPeriod < now - cb.windowStart
      · rw [if_pos hwin]
        rw [if_neg (by
          intro ⟨h, _⟩
          simp [CircuitBreaker.resetStats, hst] at h)]
        simpa [CircuitBreaker.resetStats] using hst
      · rw [if_neg hwin]
        rw [if_neg (by
          intro ⟨h, _⟩
          rw [hst] at h
          exact absurd h (by decide))]
        exact hst
    unfold CircuitBreaker.execute
    rw [if_neg (by rw [hupd]; decide)]
    simp only
    unfold CircuitBreaker.onSuccess
    rw [if_pos (by simpa using hupd)]
    exact ⟨rfl, rfl, rfl⟩

/-- C1 amended witness: the four lifecycle steps at the default configuration
`failureThreshold = 5, recoveryTimeout = 60000, monitoringPeriod = 10000,
minimumRequests = 10` — the tenth request's fifth failure opens the breaker;
an open breaker rejects 100 ms after the last failure; a call 61 s after the
last failure enters `HALF_OPEN`; a success in `HALF_OPEN` closes with zeroed
stats. -/
theorem circuitBreaker_lifecycle_amended_witness :
    (CircuitBreaker.execute 1000 ⟨⟨5, 60000, 10000, 10⟩, .CLOSED, 9, 4, 500, 0⟩
      (Except.error (0 : ℕ) : Except ℕ ℕ)).1.state = CircuitState.OPEN ∧
    CircuitBreaker.execute 1000 ⟨⟨5, 60000, 10000, 10⟩, .OPEN, 10, 5, 900, 0⟩
      (Except.ok (0 : ℕ) : Except ℕ ℕ) =
      (⟨⟨5, 60000, 10000, 10⟩, .OPEN, 10, 5, 900, 0⟩, .circuitOpen, false) ∧
    (CircuitBreaker.updateState 61500 ⟨⟨5, 60000, 10000, 10⟩, .OPEN, 10, 5, 500, 0⟩).state =
      CircuitState.HALF_OPEN ∧
    ((CircuitBreaker.execute 2000 ⟨⟨5, 60000, 10000, 10⟩, .HALF_OPEN, 3, 1, 500, 0⟩
        (Except.ok (0 : ℕ) : Except ℕ ℕ)).1.state = CircuitState.CLOSED ∧
      (CircuitBreaker.execute 2000 ⟨⟨5, 60000, 10000, 10⟩, .HALF_OPEN, 3, 1, 500, 0⟩
        (Except.ok (0 : ℕ) : Except ℕ ℕ)).1.requests = 0 ∧
      (CircuitBreaker.execute 2000 ⟨⟨5, 60000, 10000, 10⟩, .HALF_OPEN, 3, 1, 500, 0⟩
        (Except.ok (0 : ℕ) : Except ℕ ℕ)).1.failures = 0) :=
  ⟨(circuitBreaker_lifecycle_amended ⟨⟨5, 60000, 10000, 10⟩, .CLOSED, 9, 4, 500, 0⟩ 1000
      (Except.ok 0) 0 0).1 (by decide),
    (circuitBreaker_lifecycle_amended ⟨⟨5, 60000, 10000, 10⟩, .OPEN, 10, 5, 900, 0⟩ 1000
      (Except.ok (0 : ℕ) : Except ℕ ℕ) 0 0).2.1 (by decide),
    (circuitBreaker_lifecycle_amended ⟨⟨5, 60000, 10000, 10⟩, .OPEN, 10, 5, 500, 0⟩ 61500
      (Except.ok (0 : ℕ) : Except ℕ ℕ) 0 0).2.2.1 (by decide),
    (circuitBreaker_lifecycle_amended ⟨⟨5, 60000, 10000, 10⟩, .HALF_OPEN, 3, 1, 500, 0⟩ 2000
      (Except.ok 0) 0 0).2.2.2 rfl⟩

/-- C10: if a call reaches an `OPEN` breaker after the monitoring period has
elapsed since `windowStart` and the absolute clock value exceeds
`recoveryTimeout`, the window reset zeroes `lastFailureTime`, the recovery
check passes immediately, and the breaker enters `HALF_OPEN` and dispatches
the call on that very invocation — regardless of how recently the last real
failure happened. -/
theorem windowReset_recovery_on_next_call {ε α : Type} (cb : CircuitBreaker) (now : ℤ)
    (op : Except ε α)
    (h1 : cb.state = .OPEN)
    (h2 : cb.config.monitoringPeriod < now - cb.windowStart)
    (h3 : cb.config.recoveryTimeout < now) :
    (cb.updateState now).state = .HALF_OPEN ∧
    (cb.updateState now).lastFailureTime = 0 ∧
    (CircuitBreaker.execute now cb op).2.2 = true := by
  have hupd : cb.updateState now =
      { cb.resetStats now with state := .HALF_OPEN } := by
    unfold CircuitBreaker.updateState
    rw [if_pos h2]
    rw [if_pos ⟨by simpa [CircuitBreaker.resetStats] using h1,
      by simp [CircuitBreaker.resetStats]; omega⟩]
  refine ⟨by rw [hupd], by rw [hupd]; rfl, ?_⟩
  unfold CircuitBreaker.execute
  rw [hupd]
  rw [if_neg (by simp)]
  cases op <;> rfl

/-- C10 witness: an `OPEN` breaker whose last failure was 5000 ms ago (well
inside `recoveryTimeout = 60000`) still goes `HALF_OPEN` and dispatches at
`now = 70000` because the window (10000 ms) has elapsed. -/
theorem windowReset_recovery_on_next_call_witness :
    (CircuitBreaker.updateState 70000
      ⟨⟨5, 60000, 10000, 10⟩, .OPEN, 10, 5, 65000, 0⟩).state = CircuitState.HALF_OPEN ∧
    (CircuitBreaker.updateState 70000
      ⟨⟨5, 60000, 10000, 10⟩, .OPEN, 10, 5, 65000, 0⟩).lastFailureTime = 0 ∧
    (CircuitBreaker.execute 70000 ⟨⟨5, 60000, 10000, 10⟩, .OPEN, 10, 5, 65000, 0⟩
      (Except.error (0 : ℕ) : Except ℕ ℕ)).2.2 = true :=
  windowReset_recovery_on_next_call ⟨⟨5, 60000, 10000, 10⟩, .OPEN, 10, 5, 65000, 0⟩ 70000
    (Except.error 0) rfl (by decide) (by decide)

end CloudSupportMcp
